import Mathlib

/-!
Shallow embedding of the telegram-mixtaper Cloudflare worker.

The JavaScript sources are translated into pure Lean functions:

* the Cloudflare KV store becomes an explicit `String → Option _` map threaded
  through every operation that reads or writes it;
* `fetch` calls become oracle parameters; an outcome is `ok`, an HTTP error
  response (`!response.ok`), or a thrown exception;
* JavaScript truthiness on strings (`""`, `null`, `undefined` are falsy) is
  modelled on `Option String` by `truthyS`;
* `Date.now()` becomes an explicit `now : Nat` (epoch milliseconds).

The file first gives the definitions (token manager, OAuth state handshake,
link extraction, the link-processing pipeline, album pagination, channel
routing), then the theorems about them.
-/

namespace Mixtaper

/-- JavaScript truthiness for an optional string: `undefined`/`null` and the
empty string are falsy. -/
def truthyS : Option String → Bool
  | none => false
  | some s => !(s == "")

/-- JavaScript `a || b` on two optional strings. -/
def jsOrOpt (a b : Option String) : Option String :=
  if truthyS a then a else b

/-- Stored token record (`access_token` / `refresh_token` / `expires_at`), the
shape written to KV by the token manager.  `expires_at` is optional because a
record missing the field must still be handled by `isTokenExpired`. -/
structure TokenData where
  access_token : String
  refresh_token : Option String
  expires_at : Option Nat
  deriving DecidableEq

/-- The token KV namespace: keys to stored token records. -/
abbrev TokKV := String → Option TokenData

/-- `kv.put` for a token record. -/
def kvPut (kv : TokKV) (k : String) (v : TokenData) : TokKV :=
  fun k' => if k' = k then some v else kv k'

/-- `SpotifyTokenManager.isTokenExpired`: `null` records and records whose
`expires_at` is missing (or `0`, which is falsy in JavaScript) are expired;
otherwise expiry holds exactly when `now >= expires_at - 60000`. -/
def isTokenExpired (tokenData : Option TokenData) (now : Nat) : Bool :=
  match tokenData with
  | none => true
  | some td =>
    match td.expires_at with
    | none => true
    | some e =>
      if e = 0 then true
      else decide ((now : Int) ≥ (e : Int) - 60000)

/-- The environment variables the token manager reads.  Each is optional
because a worker can be deployed without it. -/
structure Env where
  SPOTIFY_CLIENT_ID : Option String
  SPOTIFY_CLIENT_SECRET : Option String
  SPOTIFY_REFRESH_TOKEN : Option String
  SPOTIFY_ACCESS_TOKEN : Option String
  deriving DecidableEq

/-- Outcome of one `fetch` call: a parsed body, a non-ok HTTP response, or a
thrown exception (network failure, malformed JSON, ...). -/
inductive FetchOutcome (α : Type)
  | ok (a : α)
  | httpErr
  | thrown
  deriving DecidableEq

/-- Body of a successful token-endpoint response
(`access_token`, optional `refresh_token`, `expires_in` seconds). -/
structure RefreshTokens where
  access_token : String
  refresh_token : Option String
  expires_in : Nat
  deriving DecidableEq

/-- `SpotifyTokenManager.refreshAccessToken` (current revision): refresh the
token behind `kvKey`.  The new record is written only after the client
credentials check and the token endpoint call have both succeeded; every
failure leaves the store untouched and rethrows. -/
def refreshAccessToken (env : Env) (fetchTok : String → FetchOutcome RefreshTokens)
    (now : Nat) (refreshToken : String) (kvKey : String) (kv : TokKV) :
    Except Unit String × TokKV :=
  if !(truthyS env.SPOTIFY_CLIENT_ID && truthyS env.SPOTIFY_CLIENT_SECRET) then
    (.error (), kv)
  else
    match fetchTok refreshToken with
    | .thrown => (.error (), kv)
    | .httpErr => (.error (), kv)
    | .ok tokens =>
      let td : TokenData :=
        { access_token := tokens.access_token
          refresh_token := jsOrOpt tokens.refresh_token (some refreshToken)
          expires_at := some (now + tokens.expires_in * 1000) }
      (.ok tokens.access_token, kvPut kv kvKey td)

/-- `SpotifyTokenManager.getAccessTokenForKey`: return the stored token when
fresh, otherwise refresh via the stored or fallback refresh token; any failure
falls back to `envAccessTokenFallback` when that is truthy and otherwise
rethrows. -/
def getAccessTokenForKey (env : Env) (fetchTok : String → FetchOutcome RefreshTokens)
    (now : Nat) (kvKey : String)
    (refreshTokenFallback envAccessTokenFallback : Option String)
    (kv : TokKV) : Except Unit String × TokKV :=
  let tokenData := kv kvKey
  let refreshPath : Except Unit String × TokKV :=
    let rt? := jsOrOpt (tokenData.bind (fun td => td.refresh_token)) refreshTokenFallback
    if truthyS rt? then refreshAccessToken env fetchTok now (rt?.getD "") kvKey kv
    else (.error (), kv)
  let inner : Except Unit String × TokKV :=
    match tokenData with
    | some td =>
      if isTokenExpired (some td) now then refreshPath
      else (.ok td.access_token, kv)
    | none => refreshPath
  match inner with
  | (.ok t, kv') => (.ok t, kv')
  | (.error e, kv') =>
    if truthyS envAccessTokenFallback then (.ok (envAccessTokenFallback.getD ""), kv')
    else (.error e, kv')

/-- KV key for a Telegram user's Spotify credential (current revision). -/
def userTokenKey (telegramUserId : String) : String :=
  "spotify_user_oauth:" ++ telegramUserId

/-- `SpotifyTokenManager.getAccessToken` (current revision, bot-default
principal): key `spotify_oauth` with the environment fallbacks. -/
def getAccessToken (env : Env) (fetchTok : String → FetchOutcome RefreshTokens)
    (now : Nat) (kv : TokKV) : Except Unit String × TokKV :=
  getAccessTokenForKey env fetchTok now "spotify_oauth"
    env.SPOTIFY_REFRESH_TOKEN env.SPOTIFY_ACCESS_TOKEN kv

/-- `SpotifyTokenManager.getAccessTokenForTelegramUser`: per-user key, no
environment fallbacks. -/
def getAccessTokenForTelegramUser (env : Env)
    (fetchTok : String → FetchOutcome RefreshTokens) (now : Nat)
    (telegramUserId : String) (kv : TokKV) : Except Unit String × TokKV :=
  getAccessTokenForKey env fetchTok now (userTokenKey telegramUserId) none none kv

/-- Token acquisition in `processLinks`: try the submitting user's own token,
and on any failure (or a falsy token) fall back, in a separate call, to the
bot-default `getAccessToken`. -/
def acquireAccessToken (env : Env) (fetchTok : String → FetchOutcome RefreshTokens)
    (now : Nat) (telegramUserId : Option String) (kv : TokKV) :
    Except Unit String × TokKV :=
  match telegramUserId with
  | none => getAccessToken env fetchTok now kv
  | some uid =>
    if uid = "" then getAccessToken env fetchTok now kv
    else
      match getAccessTokenForTelegramUser env fetchTok now uid kv with
      | (.ok t, kv') =>
        if t = "" then getAccessToken env fetchTok now kv' else (.ok t, kv')
      | (.error _, kv') => getAccessToken env fetchTok now kv'

end Mixtaper

namespace Mixtaper.Legacy

/-!
The legacy revision of the token manager (`getAccessToken(telegramUserId)`,
`getUserToken`, `getBotAccessToken`, `refreshUserToken`), in which the
per-user lookup falls back to the bot token inside the same call.
Its fetch oracle takes an `Option String` because the user path can present
an absent refresh token to the token endpoint.
-/

open Mixtaper

/-- Legacy `refreshUserToken`: refresh a user token and store it under
`user_token:<id>`; failures rethrow without writing. -/
def refreshUserToken (env : Env)
    (fetchTok : Option String → FetchOutcome RefreshTokens) (now : Nat)
    (telegramUserId : String) (refreshToken : Option String) (kv : TokKV) :
    Except Unit String × TokKV :=
  if !(truthyS env.SPOTIFY_CLIENT_ID && truthyS env.SPOTIFY_CLIENT_SECRET) then
    (.error (), kv)
  else
    match fetchTok refreshToken with
    | .thrown => (.error (), kv)
    | .httpErr => (.error (), kv)
    | .ok tokens =>
      let td : TokenData :=
        { access_token := tokens.access_token
          refresh_token := jsOrOpt tokens.refresh_token refreshToken
          expires_at := some (now + tokens.expires_in * 1000) }
      (.ok tokens.access_token, kvPut kv ("user_token:" ++ telegramUserId) td)

/-- Legacy `getUserToken`: stored token if fresh, refresh if expired, `null`
when absent or on any error. -/
def getUserToken (env : Env)
    (fetchTok : Option String → FetchOutcome RefreshTokens) (now : Nat)
    (telegramUserId : String) (kv : TokKV) : Option String × TokKV :=
  match kv ("user_token:" ++ telegramUserId) with
  | none => (none, kv)
  | some td =>
    if !(isTokenExpired (some td) now) then (some td.access_token, kv)
    else
      match refreshUserToken env fetchTok now telegramUserId td.refresh_token kv with
      | (.ok t, kv') => (some t, kv')
      | (.error _, kv') => (none, kv')

/-- Legacy `refreshAccessToken`: bot refresh writing to `spotify_oauth`. -/
def refreshBotToken (env : Env)
    (fetchTok : Option String → FetchOutcome RefreshTokens) (now : Nat)
    (refreshToken : String) (kv : TokKV) : Except Unit String × TokKV :=
  if !(truthyS env.SPOTIFY_CLIENT_ID && truthyS env.SPOTIFY_CLIENT_SECRET) then
    (.error (), kv)
  else
    match fetchTok (some refreshToken) with
    | .thrown => (.error (), kv)
    | .httpErr => (.error (), kv)
    | .ok tokens =>
      let td : TokenData :=
        { access_token := tokens.access_token
          refresh_token := jsOrOpt tokens.refresh_token (some refreshToken)
          expires_at := some (now + tokens.expires_in * 1000) }
      (.ok tokens.access_token, kvPut kv "spotify_oauth" td)

/-- Legacy `getBotAccessToken`: stored bot token if fresh, else refresh with
the stored or environment refresh token; on any failure fall back to the
`SPOTIFY_ACCESS_TOKEN` environment token when present. -/
def getBotAccessToken (env : Env)
    (fetchTok : Option String → FetchOutcome RefreshTokens) (now : Nat)
    (kv : TokKV) : Except Unit String × TokKV :=
  let tokenData := kv "spotify_oauth"
  let refreshPath : Except Unit String × TokKV :=
    let rt? := jsOrOpt (tokenData.bind (fun td => td.refresh_token)) env.SPOTIFY_REFRESH_TOKEN
    if truthyS rt? then refreshBotToken env fetchTok now (rt?.getD "") kv
    else (.error (), kv)
  let inner : Except Unit String × TokKV :=
    match tokenData with
    | some td =>
      if isTokenExpired (some td) now then refreshPath
      else (.ok td.access_token, kv)
    | none => refreshPath
  match inner with
  | (.ok t, kv') => (.ok t, kv')
  | (.error e, kv') =>
    if truthyS env.SPOTIFY_ACCESS_TOKEN then (.ok (env.SPOTIFY_ACCESS_TOKEN.getD ""), kv')
    else (.error e, kv')

/-- Legacy `getAccessToken(telegramUserId)`: try the user's token and fall
back to the bot token inside the same call when the user has none. -/
def getAccessToken (env : Env)
    (fetchTok : Option String → FetchOutcome RefreshTokens) (now : Nat)
    (telegramUserId : Option String) (kv : TokKV) : Except Unit String × TokKV :=
  match telegramUserId with
  | none => getBotAccessToken env fetchTok now kv
  | some uid =>
    if uid = "" then getBotAccessToken env fetchTok now kv
    else
      match getUserToken env fetchTok now uid kv with
      | (some t, kv') => (.ok t, kv')
      | (none, kv') => getBotAccessToken env fetchTok now kv'

end Mixtaper.Legacy

namespace Mixtaper

/-!
OAuth linking handshake (`storeOAuthState` / `consumeOAuthState` /
`handleSpotifyCallback` with `exchangeCodeForTokens` and
`setTelegramUserTokens`).
-/

/-- Payload stored behind a one-time OAuth state token. -/
structure OAuthPayload where
  telegramUserId : String
  chatId : String
  deriving DecidableEq

/-- The OAuth-state KV namespace (keys with the `spotify_oauth_state:` head,
disjoint from the token keys). -/
abbrev StateKV := String → Option OAuthPayload

/-- `SpotifyTokenManager.stateKey`. -/
def stateKey (state : String) : String :=
  "spotify_oauth_state:" ++ state

/-- `SpotifyTokenManager.storeOAuthState` (the 600 s TTL is not modelled
beyond the record's later absence). -/
def storeOAuthState (skv : StateKV) (state : String) (payload : OAuthPayload) :
    StateKV :=
  fun k => if k = stateKey state then some payload else skv k

/-- `SpotifyTokenManager.consumeOAuthState`: read the record and, when it was
present, delete it before returning. -/
def consumeOAuthState (skv : StateKV) (state : String) :
    Option OAuthPayload × StateKV :=
  match skv (stateKey state) with
  | none => (none, skv)
  | some payload =>
    (some payload, fun k => if k = stateKey state then none else skv k)

/-- Body of a successful authorization-code exchange. -/
structure UserTokens where
  access_token : String
  refresh_token : Option String
  expires_in : Nat
  deriving DecidableEq

/-- `exchangeCodeForTokens` (spotify-user-auth.js): require the client
credentials, call the token endpoint, throw unless the response is ok. -/
def exchangeCodeForTokens (env : Env) (fetchEx : FetchOutcome UserTokens) :
    Except Unit UserTokens :=
  if !(truthyS env.SPOTIFY_CLIENT_ID && truthyS env.SPOTIFY_CLIENT_SECRET) then
    .error ()
  else
    match fetchEx with
    | .ok t => .ok t
    | .httpErr => .error ()
    | .thrown => .error ()

/-- `SpotifyTokenManager.setTelegramUserTokens`: persist the exchanged tokens
as the user's credential. -/
def setTelegramUserTokens (creds : TokKV) (telegramUserId : String)
    (t : UserTokens) (now : Nat) : TokKV :=
  kvPut creds (userTokenKey telegramUserId)
    { access_token := t.access_token
      refresh_token := t.refresh_token
      expires_at := some (now + t.expires_in * 1000) }

/-- Observable outcome of `handleSpotifyCallback`: missing query parameters,
an invalid or consumed state (HTTP 400), an exchange failure propagated to the
top-level handler, or a completed link for a Telegram user. -/
inductive CallbackResult
  | missingParams
  | invalidState
  | workerError
  | success (telegramUserId : String)
  deriving DecidableEq

/-- `handleSpotifyCallback`: consume the state first, answer 400 when it is
unknown, then exchange the code and persist the credential only on a
successful exchange. -/
def handleSpotifyCallback (env : Env) (fetchEx : FetchOutcome UserTokens)
    (now : Nat) (code state : Option String) (skv : StateKV) (creds : TokKV) :
    CallbackResult × StateKV × TokKV :=
  if !(truthyS code && truthyS state) then (.missingParams, skv, creds)
  else
    match consumeOAuthState skv (state.getD "") with
    | (none, skv') => (.invalidState, skv', creds)
    | (some payload, skv') =>
      match exchangeCodeForTokens env fetchEx with
      | .error _ => (.workerError, skv', creds)
      | .ok tokens =>
        (.success payload.telegramUserId, skv',
          setTelegramUserTokens creds payload.telegramUserId tokens now)

/-!
Link extraction (`extractSpotifyLinks`): a character-level embedding of the
two regular expressions

* `https?:\/\/open\.spotify\.com\/(track|album|playlist)\/([a-zA-Z0-9]+)(\?[^\s]*)?`
* `https?:\/\/spotify\.link\/([a-zA-Z0-9]+)`

scanned with `exec` semantics (leftmost, non-overlapping, continuing after
each match), the first pass collecting canonical links and the second pass
collecting short links.
-/

/-- Content kind of a canonical link. -/
inductive LinkType
  | track
  | album
  | playlist
  deriving DecidableEq

/-- A resolved (canonical) link: `{url, type, id, isShortLink: false}`. -/
structure ResolvedLink where
  url : String
  type : LinkType
  id : String
  deriving DecidableEq

/-- An extracted link: canonical, or a short link `{url, shortId,
isShortLink: true}` awaiting resolution. -/
inductive SpotifyLink
  | full (l : ResolvedLink)
  | short (url shortId : String)
  deriving DecidableEq

/-- Consume an exact literal from the head of the character list. -/
def dropLit : List Char → List Char → Option (List Char)
  | [], cs => some cs
  | _ :: _, [] => none
  | l :: ls, c :: cs => if c = l then dropLit ls cs else none

/-- Greedily take a `[a-zA-Z0-9]+`-style run. -/
def takeAlnum : List Char → List Char × List Char
  | [] => ([], [])
  | c :: cs =>
    if c.isAlphanum then
      let r := takeAlnum cs
      (c :: r.1, r.2)
    else ([], c :: cs)

/-- Whitespace as used by the `[^\s]*` query-string tail (the ASCII cases;
the texts considered contain no other whitespace). -/
def isJsSpace (c : Char) : Bool :=
  c = ' ' || c = '\t' || c = '\n' || c = '\r'

/-- Greedily take a `[^\s]*` run. -/
def takeNonSpace : List Char → List Char × List Char
  | [] => ([], [])
  | c :: cs =>
    if isJsSpace c then ([], c :: cs)
    else
      let r := takeNonSpace cs
      (c :: r.1, r.2)

/-- Match the `(track|album|playlist)\/` segment. -/
def matchTypeSeg (cs : List Char) : Option (LinkType × List Char) :=
  match dropLit "track/".toList cs with
  | some r => some (.track, r)
  | none =>
    match dropLit "album/".toList cs with
    | some r => some (.album, r)
    | none =>
      match dropLit "playlist/".toList cs with
      | some r => some (.playlist, r)
      | none => none

/-- Match `https?://` at the head of the list. -/
def matchScheme (cs : List Char) : Option (List Char) := do
  let r1 ← dropLit "http".toList cs
  let r2 := (dropLit "s".toList r1).getD r1
  dropLit "://".toList r2

/-- Match one canonical link at the head of the list, returning the link and
the remaining characters. -/
def matchFullAt (cs : List Char) : Option (ResolvedLink × List Char) := do
  let r1 ← matchScheme cs
  let r2 ← dropLit "open.spotify.com/".toList r1
  let (ty, r3) ← matchTypeSeg r2
  let (idRun, r4) := takeAlnum r3
  if idRun.isEmpty then none
  else
    let r5 : List Char :=
      match r4 with
      | '?' :: qrest => (takeNonSpace qrest).2
      | _ => r4
    let consumed := cs.length - r5.length
    some (⟨String.mk (cs.take consumed), ty, String.mk idRun⟩, r5)

/-- Match one short link at the head of the list, returning `(url, shortId)`
and the remaining characters. -/
def matchShortAt (cs : List Char) : Option ((String × String) × List Char) := do
  let r1 ← matchScheme cs
  let r2 ← dropLit "spotify.link/".toList r1
  let (idRun, r3) := takeAlnum r2
  if idRun.isEmpty then none
  else
    let consumed := cs.length - r3.length
    some ((String.mk (cs.take consumed), String.mk idRun), r3)

/-- First scan pass: all canonical links, in text order.  The fuel is the
text length; every step consumes at least one character. -/
def scanFull : Nat → List Char → List ResolvedLink
  | 0, _ => []
  | _ + 1, [] => []
  | fuel + 1, c :: cs =>
    match matchFullAt (c :: cs) with
    | some (l, rest) => l :: scanFull fuel rest
    | none => scanFull fuel cs

/-- Second scan pass: all short links, in text order. -/
def scanShort : Nat → List Char → List (String × String)
  | 0, _ => []
  | _ + 1, [] => []
  | fuel + 1, c :: cs =>
    match matchShortAt (c :: cs) with
    | some (l, rest) => l :: scanShort fuel rest
    | none => scanShort fuel cs

/-- `extractSpotifyLinks`: the canonical-link pass followed by the short-link
pass, concatenated in that order. -/
def extractSpotifyLinks (text : String) : List SpotifyLink :=
  let cs := text.toList
  (scanFull cs.length cs).map SpotifyLink.full
    ++ (scanShort cs.length cs).map (fun p => SpotifyLink.short p.1 p.2)

/-!
The link-processing pipeline (`processLinks` of the current worker) and its
collaborators: short-link resolution, the YouTube-to-catalog matcher, and the
batched playlist inserts.  External HTTP behaviour enters as oracles:

* `resolveShort` is the outcome of `resolveSpotifyShortLink` for a short URL
  (`none` covers redirect failures, unsupported targets and thrown errors,
  all of which drop the single candidate);
* `ytInfo` is the outcome of `getYouTubeMusicTrackInfo` for a video URL;
* `results` is the raw catalog-search result list for a query.
-/

/-- Title and optional artist extracted from a foreign-provider video page. -/
structure TrackInfo where
  title : String
  artist : Option String
  deriving DecidableEq

/-- A catalog-search query (`searchTrack({title, artist})`). -/
structure SearchQuery where
  title : String
  artist : Option String
  deriving DecidableEq

/-- One track in a catalog-search result. -/
structure TrackMatch where
  uri : String
  id : String
  deriving DecidableEq

/-- An extracted YouTube / YouTube Music link `{url, kind, videoId}`. -/
structure YTLink where
  url : String
  kind : String
  videoId : String
  deriving DecidableEq

/-- Modelled from the spec: `SpotifyAPI.searchTrack` is called by
`processLinks` but its definition is not among the sources; per the spec it
issues one catalog-search query and accepts the first returned track
unconditionally, yielding no match when the result list is empty. -/
def searchTrack (results : SearchQuery → List TrackMatch) (q : SearchQuery) :
    Option TrackMatch :=
  (results q).head?

/-- The short-link resolution loop of `processLinks`: canonical links pass
through, short links are replaced by their resolution and dropped when
resolution fails, preserving order. -/
def resolveList (resolveShort : String → Option ResolvedLink) :
    List SpotifyLink → List ResolvedLink
  | [] => []
  | .full l :: rest => l :: resolveList resolveShort rest
  | .short url _ :: rest =>
    match resolveShort url with
    | some r => r :: resolveList resolveShort rest
    | none => resolveList resolveShort rest

/-- The YouTube loop of `processLinks`: per candidate, extract page info
(skip on failure), issue one `searchTrack` query (recorded), and keep the
matched URI when there is a match.  Returns the matched URIs and the query
log, both in candidate order. -/
def ytProcess (ytInfo : String → Option TrackInfo)
    (results : SearchQuery → List TrackMatch) :
    List YTLink → List String × List SearchQuery
  | [] => ([], [])
  | l :: rest =>
    match ytInfo l.url with
    | none => ytProcess ytInfo results rest
    | some info =>
      let q : SearchQuery := ⟨info.title, info.artist⟩
      let tail := ytProcess ytInfo results rest
      match searchTrack results q with
      | none => (tail.1, q :: tail.2)
      | some m => (m.uri :: tail.1, q :: tail.2)

/-- Observable output of one `processLinks` run: the `addTracksToPlaylist`
batches, in call order, and the catalog-search queries issued. -/
structure PipelineOut where
  batches : List (List String)
  queries : List SearchQuery
  deriving DecidableEq

/-- `processLinks` (current worker): resolve short links, return early when
nothing resolved, insert the direct track batch, then run the YouTube matcher
and insert its matches as a second batch. -/
def processLinks (resolveShort : String → Option ResolvedLink)
    (ytInfo : String → Option TrackInfo)
    (results : SearchQuery → List TrackMatch)
    (spotifyLinks : List SpotifyLink) (ytLinks : List YTLink) : PipelineOut :=
  let resolvedLinks := resolveList resolveShort spotifyLinks
  if resolvedLinks.isEmpty then ⟨[], []⟩
  else
    let trackLinks := resolvedLinks.filter (fun l => decide (l.type = LinkType.track))
    let spotifyBatch : List (List String) :=
      if trackLinks.isEmpty then []
      else [trackLinks.map (fun l => "spotify:track:" ++ l.id)]
    let yt := ytProcess ytInfo results ytLinks
    let ytBatch : List (List String) := if yt.1.isEmpty then [] else [yt.1]
    ⟨spotifyBatch ++ ytBatch, yt.2⟩

/-!
Album pagination (`SpotifyAPI.getAlbumTracks`): first page at `limit=50`,
then follow `next` links until none remains.  A non-ok later page breaks the
loop keeping the partial list; a thrown error anywhere is caught at the top
and yields `[]`.  The fuel bounds the number of followed `next` links; running
out of fuel models a non-terminating chain and is reported as `none`.
-/

/-- One page of an album-tracks response: track ids and the `next` URL. -/
structure AlbumPage where
  items : List String
  next : Option String
  deriving DecidableEq

/-- Result of the pagination loop. -/
inductive LoopRes
  | done (ids : List String)
  | threw
  | fuelOut
  deriving DecidableEq

/-- The `while (nextUrl)` loop of `getAlbumTracks` (a falsy `next`, absent or
empty, ends the loop). -/
def albumLoop (fetchNext : String → FetchOutcome AlbumPage) :
    List String → Option String → Nat → LoopRes
  | acc, none, _ => .done acc
  | acc, some u, fuel =>
    if u = "" then .done acc
    else
      match fuel with
      | 0 => .fuelOut
      | fuel' + 1 =>
        match fetchNext u with
        | .thrown => .threw
        | .httpErr => .done acc
        | .ok p => albumLoop fetchNext (acc ++ p.items) p.next fuel'

/-- `SpotifyAPI.getAlbumTracks`: the first-page fetch followed by the
pagination loop, every thrown error caught and turned into `[]`. -/
def getAlbumTracks (firstPage : FetchOutcome AlbumPage)
    (fetchNext : String → FetchOutcome AlbumPage) (fuel : Nat) :
    Option (List String) :=
  match firstPage with
  | .thrown => some []
  | .httpErr => some []
  | .ok p =>
    match albumLoop fetchNext p.items p.next fuel with
    | .done ids => some ids
    | .threw => some []
    | .fuelOut => none

/-!
Channel-to-playlist routing (`getPlaylistIdForChannel` in the channel-mapping
worker revision) and the batched insert it feeds.
-/

/-- Outcome of a `CHANNEL_PLAYLISTS.get` call. -/
inductive KVGetRes
  | ok (v : Option String)
  | thrown
  deriving DecidableEq

/-- `getPlaylistIdForChannel`: the stored mapping when present and truthy,
otherwise (including on a store error) the `SPOTIFY_PLAYLIST_ID` default. -/
def getPlaylistIdForChannel (channelStore : String → KVGetRes)
    (defaultPlaylistId : Option String) (chatId : String) : Option String :=
  match channelStore ("channel:" ++ chatId) with
  | .thrown => defaultPlaylistId
  | .ok v => if truthyS v then v else defaultPlaylistId

/-- A batched playlist insert: target playlist, URIs, insert position. -/
structure InsertCall where
  playlistId : Option String
  uris : List String
  position : Nat
  deriving DecidableEq

/-- Modelled from the spec: the `spotify-api.js` revision imported by the
channel-mapping `worker.js` is not among the sources (the `SpotifyAPI`
variants present belong to revisions without channel mappings and read the
playlist id from the environment); per the spec's batch-insert contract the
call submits one batched insert of the given track URIs at position 0 of the
playlist id it is handed. -/
def addTracksToPlaylistSpec (trackUris : List String)
    (playlistId : Option String) : InsertCall :=
  ⟨playlistId, trackUris, 0⟩

/-- The insert step of `processSpotifyLinks` in the channel-mapping worker:
filter the track links, resolve the channel's playlist, and submit one batch;
no call is made when there is no track link. -/
def processSpotifyLinksInsert (channelStore : String → KVGetRes)
    (defaultPlaylistId : Option String) (chatId : String)
    (resolvedLinks : List ResolvedLink) : Option InsertCall :=
  let trackLinks := resolvedLinks.filter (fun l => decide (l.type = LinkType.track))
  if trackLinks.isEmpty then none
  else
    some (addTracksToPlaylistSpec
      (trackLinks.map (fun l => "spotify:track:" ++ l.id))
      (getPlaylistIdForChannel channelStore defaultPlaylistId chatId))

/-!
Concrete inputs used by the examples and counterexamples below.
-/

/-- The duplicated-track message of the specification's example. -/
def dupText : String :=
  "https://open.spotify.com/track/AAAA111 and https://open.spotify.com/track/AAAA111"

/-- The canonical link occurring twice in `dupText`. -/
def dupLink : ResolvedLink :=
  ⟨"https://open.spotify.com/track/AAAA111", .track, "AAAA111"⟩

/-- A message in which a short link precedes a canonical link. -/
def mixedText : String :=
  "https://spotify.link/abc https://open.spotify.com/track/BBBB222"

/-- An album-kind extracted link. -/
def albumLinkEx : SpotifyLink :=
  .full ⟨"https://open.spotify.com/album/ALB1", .album, "ALB1"⟩

/-- Track ids of the album's first page (50 tracks). -/
def albumIdsA : List String := (List.range 50).map (fun i => "t" ++ toString i)

/-- Track ids of the album's second page (3 tracks). -/
def albumIdsB : List String := (List.range 3).map (fun i => "t" ++ toString (50 + i))

/-- First-page response of the 53-track album. -/
def albumFirstPage : FetchOutcome AlbumPage := .ok ⟨albumIdsA, some "page2"⟩

/-- Next-page oracle of the 53-track album. -/
def albumFetchNext : String → FetchOutcome AlbumPage :=
  fun u => if u = "page2" then .ok ⟨albumIdsB, none⟩ else .thrown

/-- A foreign-provider video link. -/
def ytLinkEx : YTLink :=
  ⟨"https://music.youtube.com/watch?v=vid42abc", "youtube_music", "vid42abc"⟩

/-- Page-info oracle knowing `ytLinkEx`'s title and artist. -/
def ytInfoEx : String → Option TrackInfo :=
  fun u =>
    if u = "https://music.youtube.com/watch?v=vid42abc" then
      some ⟨"Song Title", some "Artist Name"⟩
    else none

/-- Catalog-search oracle returning two candidate tracks for every query. -/
def searchResultsEx : SearchQuery → List TrackMatch :=
  fun _ => [⟨"spotify:track:MATCH1", "MATCH1"⟩, ⟨"spotify:track:MATCH2", "MATCH2"⟩]

/-- First page of an album whose second page fetch throws. -/
def lateFailFirstPage : FetchOutcome AlbumPage := .ok ⟨["a", "b"], some "u2"⟩

/-- Next-page oracle that always throws. -/
def lateFailFetchNext : String → FetchOutcome AlbumPage := fun _ => .thrown

end Mixtaper

namespace Mixtaper

/-!
Theorems.
-/

/-- Claim C5: for every stored credential carrying an `expires_at` and every
current time `now`, `isTokenExpired` is true exactly when
`now ≥ expires_at − 60000`, the boundary instant counting as expired. -/
theorem token_expiry_boundary (td : TokenData) (e : Nat) (now : Nat)
    (h : td.expires_at = some e) :
    isTokenExpired (some td) now = true ↔ (now : Int) ≥ (e : Int) - 60000 := by
  simp only [isTokenExpired, h]
  by_cases he : e = 0
  · subst he
    refine ⟨fun _ => ?_, fun _ => rfl⟩
    push_cast
    omega
  · rw [if_neg he]
    exact decide_eq_true_iff

/-- Witness for C5: a credential expiring at 1 000 000 ms is expired at
exactly 940 000 ms. -/
theorem token_expiry_boundary_holds :
    isTokenExpired (some ⟨"a", none, some 1000000⟩) 940000 = true :=
  (token_expiry_boundary ⟨"a", none, some 1000000⟩ 1000000 940000 rfl).mpr (by decide)

/-- Claim C9: a `null` record, and a record with no `expires_at`, are always
treated as expired. -/
theorem missing_expiry_is_expired :
    (∀ now, isTokenExpired none now = true)
    ∧ ∀ (td : TokenData) (now : Nat), td.expires_at = none →
        isTokenExpired (some td) now = true := by
  refine ⟨fun _ => rfl, fun td now h => ?_⟩
  simp [isTokenExpired, h]

/-- Witness for C9 at a concrete record. -/
theorem missing_expiry_is_expired_holds :
    isTokenExpired none 0 = true
    ∧ isTokenExpired (some ⟨"a", some "r", none⟩) 123 = true :=
  ⟨missing_expiry_is_expired.1 0,
   missing_expiry_is_expired.2 ⟨"a", some "r", none⟩ 123 rfl⟩

/-- Claim C6: a refresh that fails — missing client credentials, a thrown
fetch, or a non-ok provider response — never writes: the store after the call
is the store before it, so the last-known-good credential is intact. -/
theorem failed_refresh_preserves_store (env : Env)
    (fetchTok : String → FetchOutcome RefreshTokens) (now : Nat)
    (refreshToken kvKey : String) (kv : TokKV)
    (h : (refreshAccessToken env fetchTok now refreshToken kvKey kv).1
      = .error ()) :
    (refreshAccessToken env fetchTok now refreshToken kvKey kv).2 = kv := by
  unfold refreshAccessToken at h ⊢
  cases hcc : (truthyS env.SPOTIFY_CLIENT_ID && truthyS env.SPOTIFY_CLIENT_SECRET) with
  | false => simp [hcc]
  | true =>
    simp only [hcc, Bool.not_true, Bool.false_eq_true, if_false] at h ⊢
    cases hf : fetchTok refreshToken with
    | ok tokens => rw [hf] at h; exact Except.noConfusion h
    | httpErr => rfl
    | thrown => rfl

/-- Witness for C6: with no client credentials configured the refresh fails
and the store is unchanged. -/
theorem failed_refresh_preserves_store_holds :
    (refreshAccessToken ⟨none, none, none, none⟩ (fun _ => .thrown) 0 "rt"
      "spotify_oauth" (fun _ => none)).2 = (fun _ => none : TokKV) :=
  failed_refresh_preserves_store ⟨none, none, none, none⟩ (fun _ => .thrown) 0
    "rt" "spotify_oauth" (fun _ => none) rfl

/-- Claim C7 counterexample: the legacy `getAccessToken`, called for an
end-user principal with no stored credential, does not fail — it silently
returns the bot-default environment token inside the same call. -/
theorem user_token_fallback_cex :
    ((fun _ => none : TokKV) ("user_token:42") = none)
    ∧ (Legacy.getAccessToken ⟨none, none, none, some "env-bot-token"⟩
        (fun _ => .thrown) 0 (some "42") (fun _ => none)).1
      = Except.ok "env-bot-token" :=
  ⟨rfl, rfl⟩

/-- Claim C7 (amended): the current per-user entry point
`getAccessTokenForTelegramUser` fails when no credential is stored for the
user — returning no token at all, in particular not the bot-default one, and
leaving the store unchanged — and the `processLinks` caller performs the
bot-default fallback as a separate `getAccessToken` call; by contrast the
legacy `getAccessToken(telegramUserId)` falls back to the bot token inside
the same call. -/
theorem user_token_not_linked_fails (env : Env)
    (fetchTok : String → FetchOutcome RefreshTokens) (now : Nat)
    (uid : String) (kv : TokKV) (h : kv (userTokenKey uid) = none) :
    (getAccessTokenForTelegramUser env fetchTok now uid kv).1 = .error ()
    ∧ (getAccessTokenForTelegramUser env fetchTok now uid kv).2 = kv
    ∧ (uid ≠ "" → acquireAccessToken env fetchTok now (some uid) kv
        = getAccessToken env fetchTok now kv) := by
  have hmain : getAccessTokenForTelegramUser env fetchTok now uid kv
      = (.error (), kv) := by
    unfold getAccessTokenForTelegramUser getAccessTokenForKey
    rw [h]
    rfl
  refine ⟨by rw [hmain], by rw [hmain], fun hu => ?_⟩
  simp only [acquireAccessToken]
  rw [if_neg hu, hmain]

/-- Claim C1: when a channel has a stored (truthy) playlist mapping, the
batched insert targets the mapped playlist; exactly when no mapping is stored
the insert targets the configured default playlist.  The mapping always wins
over the default. -/
theorem channel_mapping_wins (channelStore : String → KVGetRes)
    (defaultPlaylistId : Option String) (chatId : String)
    (resolvedLinks : List ResolvedLink)
    (hne : resolvedLinks.filter (fun l => decide (l.type = LinkType.track))
      ≠ []) :
    (∀ mapped : String, mapped ≠ "" →
      channelStore ("channel:" ++ chatId) = .ok (some mapped) →
      processSpotifyLinksInsert channelStore defaultPlaylistId chatId
          resolvedLinks
        = some ⟨some mapped,
            (resolvedLinks.filter (fun l => decide (l.type = LinkType.track))).map
              (fun l => "spotify:track:" ++ l.id), 0⟩)
    ∧ (channelStore ("channel:" ++ chatId) = .ok none →
      processSpotifyLinksInsert channelStore defaultPlaylistId chatId
          resolvedLinks
        = some ⟨defaultPlaylistId,
            (resolvedLinks.filter (fun l => decide (l.type = LinkType.track))).map
              (fun l => "spotify:track:" ++ l.id), 0⟩) := by
  have hempty : (resolvedLinks.filter
      (fun l => decide (l.type = LinkType.track))).isEmpty = false := by
    cases hl : resolvedLinks.filter (fun l => decide (l.type = LinkType.track)) with
    | nil => exact absurd hl hne
    | cons a as => rfl
  constructor
  · intro mapped hm hstore
    unfold processSpotifyLinksInsert
    simp only [hempty, Bool.false_eq_true, if_false, addTracksToPlaylistSpec,
      getPlaylistIdForChannel, hstore]
    have ht : truthyS (some mapped) = true := by simp [truthyS, hm]
    rw [ht]
    rfl
  · intro hstore
    unfold processSpotifyLinksInsert
    simp only [hempty, Bool.false_eq_true, if_false, addTracksToPlaylistSpec,
      getPlaylistIdForChannel, hstore]
    rfl

/-- Witness for C1: with a mapping stored for the channel, the insert targets
the mapped playlist, not the default. -/
theorem channel_mapping_wins_holds :
    processSpotifyLinksInsert
        (fun k => if k = "channel:c1" then .ok (some "plChan") else .ok none)
        (some "plDefault") "c1" [dupLink]
      = some ⟨some "plChan", ["spotify:track:AAAA111"], 0⟩ := by
  have h := (channel_mapping_wins
    (fun k => if k = "channel:c1" then .ok (some "plChan") else .ok none)
    (some "plDefault") "c1" [dupLink] (by decide)).1 "plChan"
    (by decide) (by decide)
  rw [h]
  decide

/-- Helper: consuming a stored state returns its payload and deletes the
record. -/
theorem consumeOAuthState_some (skv : StateKV) (s : String) (p : OAuthPayload)
    (h : skv (stateKey s) = some p) :
    consumeOAuthState skv s
      = (some p, fun k => if k = stateKey s then none else skv k) := by
  unfold consumeOAuthState
  rw [h]

/-- Helper: consuming an absent state returns nothing and leaves the store
unchanged. -/
theorem consumeOAuthState_none (skv : StateKV) (s : String)
    (h : skv (stateKey s) = none) :
    consumeOAuthState skv s = (none, skv) := by
  unfold consumeOAuthState
  rw [h]

/-- Claim C4: an OAuth state record is consumed at most once.  The first
callback deletes the record whatever the code exchange later does, a repeat
callback with the same state (and any callback with an unknown state) answers
`invalidState` and writes no credential, and a failed exchange also writes no
credential. -/
theorem oauth_state_single_use (env : Env) (fe1 fe2 : FetchOutcome UserTokens)
    (n1 n2 : Nat) (skv : StateKV) (creds : TokKV) (c s : String)
    (p : OAuthPayload) (hc : c ≠ "") (hs : s ≠ "")
    (hstored : skv (stateKey s) = some p) :
    ((handleSpotifyCallback env fe1 n1 (some c) (some s) skv creds).2.1
        (stateKey s) = none)
    ∧ ((handleSpotifyCallback env fe2 n2 (some c) (some s)
          (handleSpotifyCallback env fe1 n1 (some c) (some s) skv creds).2.1
          (handleSpotifyCallback env fe1 n1 (some c) (some s) skv creds).2.2).1
        = CallbackResult.invalidState)
    ∧ ((handleSpotifyCallback env fe2 n2 (some c) (some s)
          (handleSpotifyCallback env fe1 n1 (some c) (some s) skv creds).2.1
          (handleSpotifyCallback env fe1 n1 (some c) (some s) skv creds).2.2).2.2
        = (handleSpotifyCallback env fe1 n1 (some c) (some s) skv creds).2.2)
    ∧ (exchangeCodeForTokens env fe1 = .error () →
        (handleSpotifyCallback env fe1 n1 (some c) (some s) skv creds).2.2
          = creds)
    ∧ (∀ s2, s2 ≠ "" → skv (stateKey s2) = none →
        handleSpotifyCallback env fe1 n1 (some c) (some s2) skv creds
          = (.invalidState, skv, creds)) := by
  have htc : (truthyS (some c) && truthyS (some s)) = true := by
    simp [truthyS, hc, hs]
  have hstep : ∀ (fe : FetchOutcome UserTokens) (n : Nat),
      handleSpotifyCallback env fe n (some c) (some s) skv creds
        = match exchangeCodeForTokens env fe with
          | .error _ =>
            (.workerError, fun k => if k = stateKey s then none else skv k,
              creds)
          | .ok tokens =>
            (.success p.telegramUserId,
              fun k => if k = stateKey s then none else skv k,
              setTelegramUserTokens creds p.telegramUserId tokens n) := by
    intro fe n
    unfold handleSpotifyCallback
    rw [htc]
    simp only [Bool.not_true, Bool.false_eq_true, if_false, Option.getD,
      consumeOAuthState_some skv s p hstored]
  have hinv : ∀ (fe : FetchOutcome UserTokens) (n : Nat) (S : StateKV)
      (C : TokKV) (s2 : String), s2 ≠ "" → S (stateKey s2) = none →
      handleSpotifyCallback env fe n (some c) (some s2) S C
        = (.invalidState, S, C) := by
    intro fe n S C s2 hs2 hS
    have htc2 : (truthyS (some c) && truthyS (some s2)) = true := by
      simp [truthyS, hc, hs2]
    unfold handleSpotifyCallback
    rw [htc2]
    simp only [Bool.not_true, Bool.false_eq_true, if_false, Option.getD,
      consumeOAuthState_none S s2 hS]
  have h21 : (handleSpotifyCallback env fe1 n1 (some c) (some s) skv creds).2.1
      = fun k => if k = stateKey s then none else skv k := by
    rw [hstep fe1 n1]
    cases exchangeCodeForTokens env fe1 <;> rfl
  have hdel : (handleSpotifyCallback env fe1 n1 (some c) (some s) skv creds).2.1
      (stateKey s) = none := by
    rw [h21]
    simp
  refine ⟨hdel, ?_, ?_, ?_, ?_⟩
  · rw [hinv fe2 n2 _ _ s hs hdel]
  · rw [hinv fe2 n2 _ _ s hs hdel]
  · intro hex
    rw [hstep fe1 n1, hex]
  · intro s2 hs2 habsent
    exact hinv fe1 n1 skv creds s2 hs2 habsent

/-- Witness for C4 at a concrete store, state and successful exchange. -/
theorem oauth_state_single_use_holds :
    (((handleSpotifyCallback ⟨some "id", some "secret", none, none⟩
        (.ok ⟨"at", some "rt", 3600⟩) 0 (some "code") (some "state1")
        (fun k => if k = stateKey "state1" then some ⟨"42", "100"⟩ else none)
        (fun _ => none)).2.1 (stateKey "state1") = none))
    ∧ ((handleSpotifyCallback ⟨some "id", some "secret", none, none⟩
        (.ok ⟨"at", some "rt", 3600⟩) 1 (some "code") (some "state1")
        (handleSpotifyCallback ⟨some "id", some "secret", none, none⟩
          (.ok ⟨"at", some "rt", 3600⟩) 0 (some "code") (some "state1")
          (fun k => if k = stateKey "state1" then some ⟨"42", "100"⟩ else none)
          (fun _ => none)).2.1
        (handleSpotifyCallback ⟨some "id", some "secret", none, none⟩
          (.ok ⟨"at", some "rt", 3600⟩) 0 (some "code") (some "state1")
          (fun k => if k = stateKey "state1" then some ⟨"42", "100"⟩ else none)
          (fun _ => none)).2.2).1 = CallbackResult.invalidState) := by
  have h := oauth_state_single_use ⟨some "id", some "secret", none, none⟩
    (.ok ⟨"at", some "rt", 3600⟩) (.ok ⟨"at", some "rt", 3600⟩) 0 1
    (fun k => if k = stateKey "state1" then some ⟨"42", "100"⟩ else none)
    (fun _ => none) "code" "state1" ⟨"42", "100"⟩
    (by decide) (by decide) (by simp)
  exact ⟨h.1, h.2.1⟩

/-- Helper: the YouTube loop records one query per candidate with extracted
info and keeps the head of the corresponding result list, in candidate
order. -/
theorem ytProcess_eq (ytInfo : String → Option TrackInfo)
    (results : SearchQuery → List TrackMatch) (ls : List YTLink) :
    ytProcess ytInfo results ls
      = (ls.filterMap (fun l => (ytInfo l.url).bind
            (fun i => (searchTrack results ⟨i.title, i.artist⟩).map
              (fun m => m.uri))),
         ls.filterMap (fun l => (ytInfo l.url).map
            (fun i => (⟨i.title, i.artist⟩ : SearchQuery)))) := by
  induction ls with
  | nil => rfl
  | cons l rest ih =>
    simp only [ytProcess, List.filterMap_cons]
    cases hinfo : ytInfo l.url with
    | none => simp [hinfo, ih]
    | some info =>
      cases hm : searchTrack results ⟨info.title, info.artist⟩ with
      | none => simp [hinfo, hm, ih]
      | some m => simp [hinfo, hm, ih]

/-- Helper: closed form of `processLinks` with the YouTube loop expressed as
two `filterMap`s. -/
theorem processLinks_eq (resolveShort : String → Option ResolvedLink)
    (ytInfo : String → Option TrackInfo)
    (results : SearchQuery → List TrackMatch)
    (spotifyLinks : List SpotifyLink) (ytLinks : List YTLink) :
    processLinks resolveShort ytInfo results spotifyLinks ytLinks
      = if (resolveList resolveShort spotifyLinks).isEmpty then ⟨[], []⟩
        else
          ⟨(if ((resolveList resolveShort spotifyLinks).filter
                (fun l => decide (l.type = LinkType.track))).isEmpty then []
              else [((resolveList resolveShort spotifyLinks).filter
                (fun l => decide (l.type = LinkType.track))).map
                  (fun l => "spotify:track:" ++ l.id)])
            ++ (if (ytLinks.filterMap (fun l => (ytInfo l.url).bind
                  (fun i => (searchTrack results ⟨i.title, i.artist⟩).map
                    (fun m => m.uri)))).isEmpty then []
                else [ytLinks.filterMap (fun l => (ytInfo l.url).bind
                  (fun i => (searchTrack results ⟨i.title, i.artist⟩).map
                    (fun m => m.uri)))]),
           ytLinks.filterMap (fun l => (ytInfo l.url).map
             (fun i => (⟨i.title, i.artist⟩ : SearchQuery)))⟩ := by
  simp only [processLinks, ytProcess_eq]

/-- Claim C3 counterexample: a message whose only music reference is a
foreign-provider video — with title and artist extractable and the catalog
returning candidates — triggers no catalog-search query and no insert at all,
because `processLinks` returns early when no Spotify link resolved. -/
theorem matcher_one_query_cex :
    ytInfoEx ytLinkEx.url = some ⟨"Song Title", some "Artist Name"⟩
    ∧ searchResultsEx ⟨"Song Title", some "Artist Name"⟩ ≠ []
    ∧ processLinks (fun _ => none) ytInfoEx searchResultsEx [] [ytLinkEx]
        = ⟨[], []⟩ := by
  decide

/-- Claim C3 (amended): provided at least one Spotify link resolved, the
pipeline issues exactly one catalog-search query per foreign candidate with
extracted info — the query carrying that title and artist — accepts the first
returned track as the match, and submits the matched URIs as their own batch
after the direct-link batch; when no Spotify link resolves, the early return
issues no query at all. -/
theorem matcher_one_query_first_hit (resolveShort : String → Option ResolvedLink)
    (ytInfo : String → Option TrackInfo)
    (results : SearchQuery → List TrackMatch)
    (spotifyLinks : List SpotifyLink) (ytLinks : List YTLink)
    (h : resolveList resolveShort spotifyLinks ≠ []) :
    (processLinks resolveShort ytInfo results spotifyLinks ytLinks).queries
      = ytLinks.filterMap (fun l => (ytInfo l.url).map
          (fun i => (⟨i.title, i.artist⟩ : SearchQuery)))
    ∧ (processLinks resolveShort ytInfo results spotifyLinks ytLinks).batches
      = (let trackLinks := (resolveList resolveShort spotifyLinks).filter
            (fun l => decide (l.type = LinkType.track));
         if trackLinks.isEmpty then []
         else [trackLinks.map (fun l => "spotify:track:" ++ l.id)])
        ++ (let matched := ytLinks.filterMap (fun l => (ytInfo l.url).bind
              (fun i => ((results ⟨i.title, i.artist⟩).head?).map
                (fun m => m.uri)));
            if matched.isEmpty then [] else [matched]) := by
  have hempty : (resolveList resolveShort spotifyLinks).isEmpty = false := by
    cases hl : resolveList resolveShort spotifyLinks with
    | nil => exact absurd hl h
    | cons a as => rfl
  rw [processLinks_eq, if_neg (by simp [hempty])]
  exact ⟨rfl, rfl⟩

/-- Witness for C3's amended statement: one resolvable track link plus one
foreign candidate yields one query and two separate batches, the second
holding the first catalog hit. -/
theorem matcher_one_query_first_hit_holds :
    (processLinks (fun _ => none) ytInfoEx searchResultsEx [.full dupLink]
        [ytLinkEx]).queries = [⟨"Song Title", some "Artist Name"⟩]
    ∧ (processLinks (fun _ => none) ytInfoEx searchResultsEx [.full dupLink]
        [ytLinkEx]).batches
      = [["spotify:track:AAAA111"], ["spotify:track:MATCH1"]] := by
  have h := matcher_one_query_first_hit (fun _ => none) ytInfoEx
    searchResultsEx [.full dupLink] [ytLinkEx] (by decide)
  refine ⟨?_, ?_⟩
  · rw [h.1]
    decide
  · rw [h.2]
    decide

/-- Claim C2 counterexample: a message consisting of one album link produces
no insert call at all — none of the album's 53 track URIs reaches any batch —
even though the album's two pages are fetchable and list 53 tracks. -/
theorem album_expansion_cex :
    processLinks (fun _ => none) (fun _ => none) (fun _ => []) [albumLinkEx] []
        = ⟨[], []⟩
    ∧ getAlbumTracks albumFirstPage albumFetchNext 5
        = some (albumIdsA ++ albumIdsB)
    ∧ (albumIdsA ++ albumIdsB).length = 53 := by
  decide

/-- Claim C2 (amended): the pipeline never expands albums — every URI in
every insert batch stems from a track-kind resolved link or from a catalog
match, so album-kind references contribute nothing to the batches — while
`getAlbumTracks`, when invoked, does return a paginated album's full listing
in page order (two fetched pages concatenate in order, covering the
50 + 3 = 53 example). -/
theorem album_not_expanded (resolveShort : String → Option ResolvedLink)
    (ytInfo : String → Option TrackInfo)
    (results : SearchQuery → List TrackMatch)
    (spotifyLinks : List SpotifyLink) (ytLinks : List YTLink) :
    (∀ b ∈ (processLinks resolveShort ytInfo results spotifyLinks
        ytLinks).batches, ∀ u ∈ b,
      (∃ l ∈ resolveList resolveShort spotifyLinks,
        l.type = LinkType.track ∧ u = "spotify:track:" ++ l.id)
      ∨ (∃ yl ∈ ytLinks, ∃ i, ytInfo yl.url = some i
          ∧ ∃ m, (results ⟨i.title, i.artist⟩).head? = some m ∧ u = m.uri))
    ∧ (∀ (p1 p2 : AlbumPage) (nextUrl : String)
        (f : String → FetchOutcome AlbumPage) (fuel : Nat),
        p1.next = some nextUrl → nextUrl ≠ "" → f nextUrl = .ok p2 →
        p2.next = none →
        getAlbumTracks (.ok p1) f (fuel + 1) = some (p1.items ++ p2.items)) := by
  constructor
  · intro b hb u hu
    rw [processLinks_eq] at hb
    by_cases hres : (resolveList resolveShort spotifyLinks).isEmpty
    · rw [if_pos hres] at hb
      simp at hb
    · rw [if_neg hres] at hb
      dsimp only at hb
      rcases List.mem_append.mp hb with hdir | hyt
      · by_cases htr : ((resolveList resolveShort spotifyLinks).filter
            (fun l => decide (l.type = LinkType.track))).isEmpty
        · rw [if_pos htr] at hdir
          simp at hdir
        · rw [if_neg htr] at hdir
          simp only [List.mem_singleton] at hdir
          subst hdir
          rcases List.mem_map.mp hu with ⟨l, hl, hul⟩
          rcases List.mem_filter.mp hl with ⟨hlmem, hltrack⟩
          exact Or.inl ⟨l, hlmem, of_decide_eq_true hltrack, hul.symm⟩
      · by_cases hmt : (ytLinks.filterMap (fun l => (ytInfo l.url).bind
            (fun i => (searchTrack results ⟨i.title, i.artist⟩).map
              (fun m => m.uri)))).isEmpty
        · rw [if_pos hmt] at hyt
          simp at hyt
        · rw [if_neg hmt] at hyt
          simp only [List.mem_singleton] at hyt
          subst hyt
          rcases List.mem_filterMap.mp hu with ⟨yl, hyl, hyu⟩
          rcases Option.bind_eq_some.mp hyu with ⟨i, hyi, hmap⟩
          rcases Option.map_eq_some'.mp hmap with ⟨m, hm, hum⟩
          exact Or.inr ⟨yl, hyl, i, hyi, m, hm, hum.symm⟩
  · intro p1 p2 nextUrl f fuel h1 hne h2 h3
    obtain ⟨items1, next1⟩ := p1
    obtain ⟨items2, next2⟩ := p2
    dsimp only at h1 h3 ⊢
    subst h1
    subst h3
    simp [getAlbumTracks, albumLoop, hne, h2]

/-- Witness for C2's amended statement: the two-page 53-track album
concatenates in page order. -/
theorem album_not_expanded_holds :
    getAlbumTracks albumFirstPage albumFetchNext 1
      = some (albumIdsA ++ albumIdsB) :=
  (album_not_expanded (fun _ => none) (fun _ => none) (fun _ => []) [] []).2
    ⟨albumIdsA, some "page2"⟩ ⟨albumIdsB, none⟩ "page2" albumFetchNext 0
    rfl (by decide) (by decide) rfl

/-- Claim C10 counterexample: with a first page of two ids and a next-page
fetch that throws, `getAlbumTracks` returns `[]`, not the partial two-id
list collected so far. -/
theorem album_pages_failure_cex :
    getAlbumTracks lateFailFirstPage lateFailFetchNext 5 = some []
    ∧ some ([] : List String) ≠ some ["a", "b"] := by
  decide

/-- Claim C10 (amended): `getAlbumTracks` never surfaces an exception; a
failed first page — non-ok response or thrown error — yields `[]`; a non-ok
later page ends the loop keeping the partial list collected so far, in page
order; but a thrown later-page error is caught at the top and yields `[]`
rather than the partial list. -/
theorem album_pages_failure_amended :
    (∀ (f : String → FetchOutcome AlbumPage) (fuel : Nat),
      getAlbumTracks .thrown f fuel = some []
      ∧ getAlbumTracks .httpErr f fuel = some [])
    ∧ (∀ (p : AlbumPage) (nextUrl : String)
        (f : String → FetchOutcome AlbumPage) (fuel : Nat),
        p.next = some nextUrl → nextUrl ≠ "" → f nextUrl = .httpErr →
        getAlbumTracks (.ok p) f (fuel + 1) = some p.items)
    ∧ (∀ (p : AlbumPage) (nextUrl : String)
        (f : String → FetchOutcome AlbumPage) (fuel : Nat),
        p.next = some nextUrl → nextUrl ≠ "" → f nextUrl = .thrown →
        getAlbumTracks (.ok p) f (fuel + 1) = some []) := by
  refine ⟨fun f fuel => ⟨rfl, rfl⟩, ?_, ?_⟩
  · intro p nextUrl f fuel h1 hne h2
    obtain ⟨items1, next1⟩ := p
    dsimp only at h1 ⊢
    subst h1
    simp [getAlbumTracks, albumLoop, hne, h2]
  · intro p nextUrl f fuel h1 hne h2
    obtain ⟨items1, next1⟩ := p
    dsimp only at h1 ⊢
    subst h1
    simp [getAlbumTracks, albumLoop, hne, h2]

/-- Witness for C10's amended statement: a non-ok second page keeps the
partial first page; a thrown second page yields the empty list. -/
theorem album_pages_failure_amended_holds :
    getAlbumTracks (.ok ⟨["a", "b"], some "u2"⟩) (fun _ => .httpErr) 1
      = some ["a", "b"]
    ∧ getAlbumTracks lateFailFirstPage lateFailFetchNext 1 = some [] :=
  ⟨album_pages_failure_amended.2.1 ⟨["a", "b"], some "u2"⟩ "u2"
      (fun _ => .httpErr) 0 rfl (by decide) rfl,
   album_pages_failure_amended.2.2 ⟨["a", "b"], some "u2"⟩ "u2"
      lateFailFetchNext 0 rfl (by decide) rfl⟩

/-- Claim C8 counterexample: in a text where a short link precedes a
canonical link, the extractor lists the canonical link first: the output
order is not the left-to-right text order. -/
theorem extract_order_cex :
    mixedText
      = "https://spotify.link/abc" ++ " "
        ++ "https://open.spotify.com/track/BBBB222"
    ∧ extractSpotifyLinks mixedText
      = [SpotifyLink.full
          ⟨"https://open.spotify.com/track/BBBB222", LinkType.track,
            "BBBB222"⟩,
         SpotifyLink.short "https://spotify.link/abc" "abc"] := by
  refine ⟨rfl, ?_⟩
  decide

/-- Claim C8 (amended): extraction applies no deduplication and preserves
left-to-right text order among canonical links and among short links
separately, but the output lists every canonical-link match before every
short-link match (two scan passes), so overall text order is not preserved
when a short link precedes a canonical link; the duplicated-track example
yields the two-element batch with both entries in order. -/
theorem extract_order_amended :
    (∀ text : String, extractSpotifyLinks text
      = (scanFull text.toList.length text.toList).map SpotifyLink.full
        ++ (scanShort text.toList.length text.toList).map
          (fun pr => SpotifyLink.short pr.1 pr.2))
    ∧ extractSpotifyLinks dupText = [.full dupLink, .full dupLink]
    ∧ processLinks (fun _ => none) (fun _ => none) (fun _ => [])
        (extractSpotifyLinks dupText) []
      = ⟨[["spotify:track:AAAA111", "spotify:track:AAAA111"]], []⟩ := by
  refine ⟨fun text => rfl, ?_, ?_⟩
  · decide
  · decide

/-- Witness for C7's amended statement at a concrete unlinked user. -/
theorem user_token_not_linked_fails_holds :
    (getAccessTokenForTelegramUser ⟨none, none, none, some "env-bot-token"⟩
      (fun _ => .thrown) 0 "42" (fun _ => none)).1 = .error ()
    ∧ (getAccessTokenForTelegramUser ⟨none, none, none, some "env-bot-token"⟩
      (fun _ => .thrown) 0 "42" (fun _ => none)).2 = (fun _ => none : TokKV)
    ∧ ("42" ≠ "" → acquireAccessToken ⟨none, none, none, some "env-bot-token"⟩
        (fun _ => .thrown) 0 (some "42") (fun _ => none)
      = getAccessToken ⟨none, none, none, some "env-bot-token"⟩
        (fun _ => .thrown) 0 (fun _ => none)) :=
  user_token_not_linked_fails ⟨none, none, none, some "env-bot-token"⟩
    (fun _ => .thrown) 0 "42" (fun _ => none) rfl

end Mixtaper
